import Mathlib

/-!
Verification of the deadline-bounded agent control loop of the
tds-quiz-solver repository: a shallow embedding of the per-question timer
(src/app/timer.py), the LLM client retry/fallback logic
(src/app/llm/client.py), the per-question agent loop and submission path
(src/app/agent/solver.py), and the submission size gate
(src/app/primitives/submit.py), together with theorems settling the spec
claims about them.

Python floats standing for wall-clock seconds are modelled as rationals;
Python strings as lists of characters; Python dicts carrying JSON values
as association lists.
-/

namespace QuizSolver

/-! ## QuestionTimer (src/app/timer.py)

The timer keeps a fixed budget `timeout` and an optional `start_time`.
All time-reading methods take the current wall-clock instant `now`
explicitly, standing for Python's `time.time()`. -/

structure QuestionTimer where
  timeout : ℚ
  start_time : Option ℚ

/-- `QuestionTimer.elapsed` (timer.py lines 40-49): seconds since start,
`0` when the timer was never started. -/
def QuestionTimer.elapsed (t : QuestionTimer) (now : ℚ) : ℚ :=
  match t.start_time with
  | none => 0
  | some s => now - s

/-- `QuestionTimer.remaining` (timer.py lines 51-58):
`max(0.0, self.timeout - self.elapsed())`. -/
def QuestionTimer.remaining (t : QuestionTimer) (now : ℚ) : ℚ :=
  max 0 (t.timeout - t.elapsed now)

/-- `QuestionTimer.should_force_submit` (timer.py lines 60-73):
`self.elapsed() >= self.timeout` (the log side effect is ignored). -/
def QuestionTimer.should_force_submit (t : QuestionTimer) (now : ℚ) : Bool :=
  decide (t.timeout ≤ t.elapsed now)

/-! ## LLM client (src/app/llm/client.py)

The two providers, the errors an attempt can raise, and the exceptions the
client itself raises. The network is abstracted as a function giving the
outcome of each numbered attempt against one provider. -/

inductive ProviderId where
  | gemini
  | aipipe
deriving DecidableEq

/-- Exceptions a single provider call can raise: `httpx.HTTPStatusError`
(carrying the status code), `httpx.TimeoutException`,
`httpx.TransportError`, or anything else (e.g. `QuizSolverError` from a
missing API key or a malformed response body). -/
inductive LLMError where
  | httpStatus (code : ℕ)
  | timeoutExc
  | transportError
  | otherError

/-- Exceptions observable from `LLMClient` methods.

`attributeError` models the `AttributeError` raised by the attribute
lookup `timer.time_remaining` in `_call_with_retries` (client.py line
185): `QuestionTimer` (src/app/timer.py) defines `elapsed`, `remaining`,
`should_force_submit`, `reset` and `get_status`, but no `time_remaining`.
`insufficientTime` is `QuizSolverError("LLM call aborted: only ...s
remaining...")` (line 188); `callFailed e` is
`QuizSolverError(f"LLM call failed: {last_error}")` (line 213) carrying
the last attempt error, `none` when no attempt ran. -/
inductive ClientExc where
  | attributeError
  | insufficientTime
  | callFailed (lastError : Option LLMError)

/-- `timer.time_remaining()` as executed against `src/app/timer.py`:
the method does not exist on `QuestionTimer`, so the call raises
`AttributeError` regardless of the timer state. -/
def QuestionTimer.time_remaining_call (_t : QuestionTimer) (_now : ℚ) :
    Except ClientExc ℚ :=
  Except.error ClientExc.attributeError

/-- `LLMClient._is_retriable_error` (client.py lines 215-229): HTTP 429
and 5xx, timeouts and transport failures are retriable; everything else
is not. -/
def LLMClient.is_retriable_error : LLMError → Bool
  | .httpStatus code => code == 429 || (500 ≤ code && code < 600)
  | .timeoutExc => true
  | .transportError => true
  | .otherError => false

/-- The backoff schedule of `_call_with_retries` (client.py line 178). -/
def LLMClient.backoffs : List ℚ := [0, 1/2, 1, 2]

/-- The timer check at the top of each attempt (client.py lines 184-190):
with a timer present, `timer.time_remaining()` is called (raising, see
`QuestionTimer.time_remaining_call`); were a value returned, a value
below 5 seconds would abort with the insufficient-time error. Returns
`some e` when the loop must raise `e` before issuing the attempt. -/
def LLMClient.timer_gate (timer : Option QuestionTimer) (now : ℚ) :
    Option ClientExc :=
  match timer with
  | none => none
  | some t =>
    match t.time_remaining_call now with
    | .error e => some e
    | .ok remaining => if remaining < 5 then some .insufficientTime else none

/-- The retry loop body of `LLMClient._call_with_retries` (client.py lines
182-213). `attempts a` is the outcome of the `a`-th network call on this
provider; `left` is the number of loop iterations still permitted
(`max_attempts - attempt`). Returns the result, the number of network
calls issued, and the list of backoff sleeps performed. -/
def LLMClient.call_with_retries_go (attempts : ℕ → Except LLMError String)
    (timer : Option QuestionTimer) (now : ℚ) :
    ℕ → ℕ → Option LLMError → ℕ → List ℚ →
    Except ClientExc String × ℕ × List ℚ
  | _, 0, lastError, calls, slept =>
    (.error (.callFailed lastError), calls, slept)
  | attempt, left + 1, _lastError, calls, slept =>
    match LLMClient.timer_gate timer now with
    | some e => (.error e, calls, slept)
    | none =>
      let d := LLMClient.backoffs.getD attempt 0
      let slept1 := if 0 < d then slept ++ [d] else slept
      match attempts attempt with
      | .ok s => (.ok s, calls + 1, slept1)
      | .error e =>
        if LLMClient.is_retriable_error e = false ∨ left = 0 then
          (.error (.callFailed (some e)), calls + 1, slept1)
        else
          LLMClient.call_with_retries_go attempts timer now
            (attempt + 1) left (some e) (calls + 1) slept1

/-- `LLMClient._call_with_retries` with its default `max_attempts = 4`. -/
def LLMClient.call_with_retries (attempts : ℕ → Except LLMError String)
    (timer : Option QuestionTimer) (now : ℚ) :
    Except ClientExc String × ℕ × List ℚ :=
  LLMClient.call_with_retries_go attempts timer now 0 4 none 0 []

/-- `LLMClient._build_provider_order` (client.py lines 147-160). -/
def LLMClient.build_provider_order (primary : ProviderId)
    (fallbackEnabled : Bool) : List ProviderId :=
  primary ::
    (if fallbackEnabled then
      [match primary with | .gemini => .aipipe | .aipipe => .gemini]
    else [])

/-- The provider loop of `LLMClient.generate` (client.py lines 90-133):
try each provider in order with `_call_with_retries`; on failure remember
the error and continue; raise the aggregate `QuizSolverError` when every
provider fails. Returns the result (the error side carrying the last
observed provider error) and, per provider tried, the number of network
calls issued against it. -/
def LLMClient.generate_go (behavior : ProviderId → ℕ → Except LLMError String)
    (timer : Option QuestionTimer) (now : ℚ) :
    List ProviderId → Option ClientExc →
    Except (Option ClientExc) String × List (ProviderId × ℕ)
  | [], lastError => (.error lastError, [])
  | p :: rest, _lastError =>
    let r := LLMClient.call_with_retries (behavior p) timer now
    match r.1 with
    | .ok s => (.ok s, [(p, r.2.1)])
    | .error e =>
      let next := LLMClient.generate_go behavior timer now rest (some e)
      (next.1, (p, r.2.1) :: next.2)

/-- `LLMClient.generate` (client.py lines 58-133), abstracting the message
building: run the provider order, with per-provider retry. -/
def LLMClient.generate (behavior : ProviderId → ℕ → Except LLMError String)
    (primary : ProviderId) (fallbackEnabled : Bool)
    (timer : Option QuestionTimer) (now : ℚ) :
    Except (Option ClientExc) String × List (ProviderId × ℕ) :=
  LLMClient.generate_go behavior timer now
    (LLMClient.build_provider_order primary fallbackEnabled) none

/-! ## JSON values and the size of `json.dumps` output

Python dict/JSON payloads. `dumpsLen` computes
`len(json.dumps(v).encode("utf-8"))` for Python's default `json.dumps`
(separators `", "` and `": "`, `ensure_ascii=True`), which is what
`SubmissionHandler.submit_answer` measures (submit.py lines 54-56). -/

inductive Json where
  | null
  | bool (b : Bool)
  | num (n : ℤ)
  | str (s : List Char)
  | arr (xs : List Json)
  | obj (kvs : List (List Char × Json))

/-- Bytes contributed by one character of a JSON string under
`ensure_ascii=True`: `"` and `\` escape to two bytes, the five short
control escapes to two, other control characters to `\uXXXX`, printable
ASCII to one byte, other BMP characters to `\uXXXX`, astral characters to
a surrogate pair `\uXXXX\uXXXX`. -/
def escCharLen (c : Char) : ℕ :=
  if c = '"' ∨ c = '\\' then 2
  else if c = '\n' ∨ c = '\t' ∨ c = '\r' ∨ c = '\x08' ∨ c = '\x0c' then 2
  else if c.toNat < 32 then 6
  else if c.toNat < 128 then 1
  else if c.toNat ≤ 65535 then 6
  else 12

/-- Bytes of a dumped JSON string: two quotes plus the escaped payload. -/
def escStrLen (s : List Char) : ℕ := 2 + (s.map escCharLen).sum

/-- Decimal digit count of a natural number as printed by `json.dumps`. -/
def natDigitsLen (n : ℕ) : ℕ := if n = 0 then 1 else Nat.log 10 n + 1

/-- Bytes of a dumped JSON integer (sign plus digits). -/
def intDumpLen (n : ℤ) : ℕ :=
  if n < 0 then 1 + natDigitsLen n.natAbs else natDigitsLen n.natAbs

mutual

/-- `len(json.dumps(v).encode("utf-8"))` for a JSON value `v`. -/
def dumpsLen : Json → ℕ
  | .null => 4
  | .bool true => 4
  | .bool false => 5
  | .num n => intDumpLen n
  | .str s => escStrLen s
  | .arr xs => 2 + dumpsLenArr xs
  | .obj kvs => 2 + dumpsLenObj kvs

/-- Bytes of the comma-separated items of a dumped JSON array. -/
def dumpsLenArr : List Json → ℕ
  | [] => 0
  | [x] => dumpsLen x
  | x :: y :: rest => dumpsLen x + 2 + dumpsLenArr (y :: rest)

/-- Bytes of the comma-separated `"key": value` items of a dumped JSON
object. -/
def dumpsLenObj : List (List Char × Json) → ℕ
  | [] => 0
  | [(k, v)] => escStrLen k + 2 + dumpsLen v
  | (k, v) :: x :: rest => escStrLen k + 2 + dumpsLen v + 2 + dumpsLenObj (x :: rest)

end

/-! ## Python dict operations used on the submission template -/

/-- `d.get(k)`: first-match lookup in the association-list model. -/
def dictGet (d : List (List Char × Json)) (k : List Char) : Option Json :=
  match d with
  | [] => none
  | (k1, v) :: rest => if k1 = k then some v else dictGet rest k

/-- `d.setdefault(k, v)`: keep `d` when `k` is present, else bind `k` to
`v`. -/
def dictSetdefault (d : List (List Char × Json)) (k : List Char) (v : Json) :
    List (List Char × Json) :=
  match dictGet d k with
  | some _ => d
  | none => d ++ [(k, v)]

/-- `d[k] = v`: overwrite in place or append. -/
def dictSet (d : List (List Char × Json)) (k : List Char) (v : Json) :
    List (List Char × Json) :=
  match d with
  | [] => [(k, v)]
  | (k1, v1) :: rest =>
    if k1 = k then (k, v) :: rest else (k1, v1) :: dictSet rest k v

/-- `d.update(u)`: set every binding of `u` into `d` in order. -/
def dictUpdate (d : List (List Char × Json))
    (u : List (List Char × Json)) : List (List Char × Json) :=
  u.foldl (fun acc kv => dictSet acc kv.1 kv.2) d

/-! ## Submission payload preparation (solver.py lines 301-311) -/

/-- The required-fields block at the head of `QuestionAgent._submit_answer`
(solver.py lines 301-309): `setdefault("email", self.email)`,
`setdefault("url", template.get("url", ""))`,
`setdefault("secret", self.secret_value)`, `setdefault("answer", None)`. -/
def ensure_required_fields (email secret : List Char)
    (d : List (List Char × Json)) : List (List Char × Json) :=
  let d1 := dictSetdefault d (String.data "email") (.str email)
  let urlDefault := (dictGet d1 (String.data "url")).getD (.str [])
  let d2 := dictSetdefault d1 (String.data "url") urlDefault
  let d3 := dictSetdefault d2 (String.data "secret") (.str secret)
  dictSetdefault d3 (String.data "answer") .null

/-! ## Submission size validation (src/app/primitives/submit.py) -/

/-- The size-validation head of `SubmissionHandler.submit_answer`
(submit.py lines 54-61): serialize the payload, and when the byte size
exceeds 1MB (`size / (1024 * 1024) > 1.0`) raise `SubmissionError` before
any POST (`none`); otherwise the payload is transmitted as is
(`some payload`). -/
def submit_answer_gate (payload : Json) : Option Json :=
  if 1048576 < dumpsLen payload then none else some payload

/-! ## Context log (solver.py lines 375-384) -/

/-- `QuestionAgent._append_context`: append the entry plus a newline; when
the log exceeds 12000 characters keep only the last 8000 characters
(`self.context_log[-8000:]`). -/
def append_context (log entry : List Char) : List Char :=
  let log2 := log ++ entry ++ ['\n']
  if 12000 < log2.length then log2.drop (log2.length - 8000) else log2

/-- The untrimmed serialization of a list of entries: each entry followed
by its newline, in order. -/
def serialize_entries (es : List (List Char)) : List Char :=
  es.foldl (fun acc e => acc ++ e ++ ['\n']) []

/-- Appending a whole list of entries through `_append_context`. -/
def fold_append_context (es : List (List Char)) : List Char :=
  es.foldl append_context []

/-! ## The ReAct loop (solver.py lines 210-287)

Each iteration of `_react_loop` first passes the `should_force_submit()`
guard (line 218) and then executes `time_remaining =
self.timer.time_remaining()` (line 219) — an attribute access that raises
(see `QuestionTimer.time_remaining_call`), so the body past line 219 is
dead code in the staged program. It is nevertheless translated below,
guarded by the never-taken `.ok` branch of the read: each such iteration
is summarized by a `ReactEvent` — what the `llm.generate` call (line 228)
plus JSON parsing of its response would produce, and, for a tool action,
how the dispatch would go. -/

/-- Outcome of dispatching one tool call (solver.py lines 272-287):
`missing` is the `KeyError` from `ToolRegistry.get`, `found_raises` an
exception from the tool itself, `found_ok` a result whose JSON string is
`result`. -/
inductive ToolRunOutcome where
  | found_ok (result : List Char)
  | found_raises (msg : List Char)
  | missing

/-- One REACTING iteration as observed by the loop: the reasoning call
raised; the response was unparseable as JSON; or it parsed to a tool
action, a final action, or an unknown action. -/
inductive ReactEvent where
  | llm_raises
  | bad_json
  | act_tool (name : List Char) (outcome : ToolRunOutcome)
  | act_final (updated : List (List Char × Json)) (explanation : List Char)
  | act_other

/-- How `_react_loop` ended. -/
inductive ReactEnd where
  | deadline
  | explicit_final
  | parse_fail
  | unknown_action

/-- Errors fatal to a round: the `AttributeError` from a
`timer.time_remaining()` access (solver.py lines 219 and 343; the method
does not exist on `QuestionTimer`), and a `QuizSolverError` propagating
from an exhausted `llm.generate` call. -/
inductive RoundError where
  | attribute_error
  | reasoning_failed

/-- The `THOUGHT: Using tool ... because ...` entry (solver.py line 253),
keeping the tool name. -/
def thought_entry (name : List Char) : List Char :=
  String.data "THOUGHT: Using tool " ++ name

/-- The context entry `_execute_tool_step` appends for one dispatch
outcome: the not-found error, the truncated observation
(`obs_str[:1500]`), or the captured tool exception. -/
def tool_step_entry (name : List Char) : ToolRunOutcome → List Char
  | .missing => String.data "ERROR: Tool " ++ name ++ String.data " not found"
  | .found_ok r => String.data "OBSERVATION from " ++ name ++ String.data ": " ++ r.take 1500
  | .found_raises m => String.data "ERROR from " ++ name ++ String.data ": " ++ m

/-- `QuestionAgent._execute_tool_step` (solver.py lines 272-287): every
outcome — unknown tool, tool exception, success — is recorded through
`_append_context`; nothing propagates. -/
def execute_tool_step (log : List Char) (name : List Char)
    (outcome : ToolRunOutcome) : List Char :=
  append_context log (tool_step_entry name outcome)

/-- The `FINAL: ...` entry (solver.py line 264), keeping the explanation. -/
def final_entry (explanation : List Char) : List Char :=
  String.data "FINAL: " ++ explanation

/-- `QuestionAgent._react_loop` (solver.py lines 210-270). `ev i` is what
iteration `i` would observe, `dur i` the wall-clock time it would
consume, `t` the question timer, `now` the clock at the loop guard. Fuel
bounds the recursion; `none` means fuel ran out (an artifact of the
embedding, not a loop exit). Each iteration first checks the guard (line
218), then reads `self.timer.time_remaining()` (line 219), which raises:
the round aborts with that `AttributeError`. The rest of the body — dead
in the staged program — is translated under the read's `.ok` branch: on
`llm_raises` the `QuizSolverError` propagates out of the round;
otherwise the loop ends with a `ReactEnd`, the clock, the context log
and the submission template. -/
def react_loop_go (ev : ℕ → ReactEvent) (dur : ℕ → ℚ) (t : QuestionTimer) :
    ℕ → ℕ → ℚ → List Char → List (List Char × Json) →
    Option (Except RoundError (ReactEnd × ℚ × List Char × List (List Char × Json)))
  | 0, _, _, _, _ => none
  | fuel + 1, i, now, log, tmpl =>
    if t.should_force_submit now then some (.ok (.deadline, now, log, tmpl))
    else
      match t.time_remaining_call now with
      | .error _ => some (.error .attribute_error)
      | .ok _tr =>
        match ev i with
        | .llm_raises => some (.error .reasoning_failed)
        | .bad_json => some (.ok (.parse_fail, now + dur i, log, tmpl))
        | .act_tool name outcome =>
          let log1 := append_context log (thought_entry name)
          let log2 := execute_tool_step log1 name outcome
          react_loop_go ev dur t fuel (i + 1) (now + dur i) log2 tmpl
        | .act_final updated explanation =>
          some (.ok (.explicit_final, now + dur i,
            append_context log (final_entry explanation), dictUpdate tmpl updated))
        | .act_other => some (.ok (.unknown_action, now + dur i, log, tmpl))

/-- `QuestionAgent._force_finalize` (solver.py lines 338-370): line 343
reads `self.timer.time_remaining()`, which raises before the single
`llm.generate` call at line 350 is reached. Returns the outcome and the
number of finalization reasoning calls issued; the `.ok` branch — dead in
the staged program — would issue that one call. -/
def force_finalize (t : QuestionTimer) (now : ℚ) : Except RoundError Unit × ℕ :=
  match t.time_remaining_call now with
  | .error _ => (.error .attribute_error, 0)
  | .ok _tr => (.ok (), 1)

/-- The finalization head of `QuestionAgent._submit_answer` (solver.py
lines 297-299): when `timer.should_force_submit()` holds at submission
time, `_force_finalize()` runs (and, as staged, raises); otherwise
submission proceeds directly with no extra reasoning call. -/
def submit_finalize (t : QuestionTimer) (nowSubmit : ℚ) :
    Except RoundError Unit × ℕ :=
  if t.should_force_submit nowSubmit then force_finalize t nowSubmit
  else (.ok (), 0)

/-! ## The job chain loop (solver.py lines 23-69) -/

/-- `settings.forces_submit_time` as executed against src/app/config.py:
`Settings` defines `force_submit_time`, not `forces_submit_time`, so the
attribute access at solver.py line 45 raises `AttributeError`. -/
def settings_forces_submit_time : Except RoundError ℚ :=
  Except.error RoundError.attribute_error

/-- The question loop of `run_solver_job` (solver.py lines 38-69). Each
`while current_url` iteration builds the round's timer with
`QuestionTimer(timeout=settings.forces_submit_time)` (line 45); that
attribute access raises, and the try/except of lines 38-69 logs and
re-raises, failing the job. The rest of the iteration — dead in the
staged program — is translated under the read's `.ok` branch, with the
round abstracted into `answers done`, the `url` field of round `done`'s
submit response: a next url continues the loop, a null url ends the
chain. Fuel bounds the recursion: `none` is fuel exhaustion, `some (.ok
r)` normal completion after `r` rounds, `some (.error e)` a job
failure. -/
def run_solver_job_go (answers : ℕ → Option (List Char)) :
    ℕ → ℕ → Option (Except RoundError ℕ)
  | 0, _ => none
  | fuel + 1, done =>
    match settings_forces_submit_time with
    | .error e => some (.error e)
    | .ok _budget =>
      match answers done with
      | some _ => run_solver_job_go answers fuel (done + 1)
      | none => some (.ok (done + 1))

/-! # Theorems -/

/-- Computation rule: a started timer's elapsed time is `now - start`. -/
theorem elapsed_mk_some (B T n : ℚ) :
    QuestionTimer.elapsed ⟨B, some T⟩ n = n - T := rfl

/-- Computation rule: an unstarted timer's elapsed time is `0`. -/
theorem elapsed_mk_none (B n : ℚ) :
    QuestionTimer.elapsed ⟨B, none⟩ n = 0 := rfl

/-- C1: for every budget `B`, once the timer is started at time `T`,
`remaining()` equals `max(0, B - (now - T))` and is non-increasing as the
clock moves forward, and `should_force_submit()` is `false` for every
read strictly before `T + B`, `true` for every read at or after `T + B`,
and holds exactly when `remaining()` is `0`. -/
theorem timer_started_deadline_contract (B T n n2 : ℚ) (hle : n ≤ n2) :
    QuestionTimer.remaining ⟨B, some T⟩ n = max 0 (B - (n - T))
    ∧ QuestionTimer.remaining ⟨B, some T⟩ n2 ≤ QuestionTimer.remaining ⟨B, some T⟩ n
    ∧ (QuestionTimer.should_force_submit ⟨B, some T⟩ n = false ↔ n < T + B)
    ∧ (QuestionTimer.should_force_submit ⟨B, some T⟩ n = true ↔ T + B ≤ n)
    ∧ (QuestionTimer.should_force_submit ⟨B, some T⟩ n = true
        ↔ QuestionTimer.remaining ⟨B, some T⟩ n = 0) := by
  refine ⟨rfl, ?_, ?_, ?_, ?_⟩
  · simp only [QuestionTimer.remaining, elapsed_mk_some]
    exact max_le_max le_rfl (by linarith)
  · simp only [QuestionTimer.should_force_submit, elapsed_mk_some,
      decide_eq_false_iff_not, not_le]
    constructor <;> intro h <;> linarith
  · simp only [QuestionTimer.should_force_submit, elapsed_mk_some,
      decide_eq_true_eq]
    constructor <;> intro h <;> linarith
  · simp only [QuestionTimer.should_force_submit, QuestionTimer.remaining,
      elapsed_mk_some, decide_eq_true_eq, max_eq_left_iff]
    constructor <;> intro h <;> linarith

/-- Witness for C1 at budget 170 started at time 10, read at times 20 and
50. -/
theorem timer_started_deadline_contract_witness :
    (20 : ℚ) ≤ 50
    ∧ (QuestionTimer.remaining ⟨170, some 10⟩ 20 = max 0 (170 - (20 - 10))
      ∧ QuestionTimer.remaining ⟨170, some 10⟩ 50
          ≤ QuestionTimer.remaining ⟨170, some 10⟩ 20
      ∧ (QuestionTimer.should_force_submit ⟨170, some 10⟩ 20 = false ↔ (20 : ℚ) < 10 + 170)
      ∧ (QuestionTimer.should_force_submit ⟨170, some 10⟩ 20 = true ↔ (10 : ℚ) + 170 ≤ 20)
      ∧ (QuestionTimer.should_force_submit ⟨170, some 10⟩ 20 = true
          ↔ QuestionTimer.remaining ⟨170, some 10⟩ 20 = 0)) :=
  ⟨by norm_num, timer_started_deadline_contract 170 10 20 50 (by norm_num)⟩

/-- C10 counterexample: a timer constructed with `timeout = 0` and never
started already reports `should_force_submit() = True`, because
`elapsed() >= timeout` is `0 >= 0`; the claim asserts `false` for every
unstarted timer. -/
theorem unstarted_timer_zero_budget_forces_submit :
    QuestionTimer.should_force_submit ⟨0, none⟩ 5 = true := by
  decide

/-- C10 (amended): provided the configured timeout is positive — as the
default 170 and any realistic budget are — a timer on which `start()` was
never called reports `elapsed() = 0`, `remaining()` equal to the full
budget, and `should_force_submit() = False`. -/
theorem unstarted_timer_contract (B now : ℚ) (hB : 0 < B) :
    QuestionTimer.elapsed ⟨B, none⟩ now = 0
    ∧ QuestionTimer.remaining ⟨B, none⟩ now = B
    ∧ QuestionTimer.should_force_submit ⟨B, none⟩ now = false := by
  refine ⟨rfl, ?_, ?_⟩
  · simp only [QuestionTimer.remaining, elapsed_mk_none, sub_zero]
    exact max_eq_right hB.le
  · simp only [QuestionTimer.should_force_submit, elapsed_mk_none,
      decide_eq_false_iff_not, not_le]
    exact hB

/-- Witness for the amended C10 at the default budget 170. -/
theorem unstarted_timer_contract_witness :
    (0 : ℚ) < 170
    ∧ (QuestionTimer.elapsed ⟨170, none⟩ 3 = 0
      ∧ QuestionTimer.remaining ⟨170, none⟩ 3 = 170
      ∧ QuestionTimer.should_force_submit ⟨170, none⟩ 3 = false) :=
  ⟨by norm_num, unstarted_timer_contract 170 3 (by norm_num)⟩

/-- C2 (code bug, evaluated at the failing input): for every provider
behavior, every configuration and every timer state — however much time
remains — `generate()` with a timer supplied raises the aggregate
`QuizSolverError` wrapping the `AttributeError` from the nonexistent
`timer.time_remaining` method, and issues zero network calls. The claim's
intended behavior (consult `remaining()`, abort with the
insufficient-time error only below 5 seconds) is visible in client.py
lines 184-190 but is unreachable. -/
theorem generate_with_timer_raises_without_network
    (behavior : ProviderId → ℕ → Except LLMError String)
    (primary : ProviderId) (fb : Bool) (t : QuestionTimer) (now : ℚ) :
    (LLMClient.generate behavior primary fb (some t) now).1
        = .error (some .attributeError)
    ∧ ((LLMClient.generate behavior primary fb (some t) now).2.map Prod.snd).sum = 0 := by
  cases primary <;> cases fb <;> exact ⟨rfl, rfl⟩

/-- One-step unfolding of the retry loop when iterations remain. -/
theorem call_go_succ (attempts : ℕ → Except LLMError String)
    (timer : Option QuestionTimer) (now : ℚ) (attempt left : ℕ)
    (lastError : Option LLMError) (calls : ℕ) (slept : List ℚ) :
    LLMClient.call_with_retries_go attempts timer now attempt (left + 1)
        lastError calls slept
      = match LLMClient.timer_gate timer now with
        | some e => (.error e, calls, slept)
        | none =>
          let d := LLMClient.backoffs.getD attempt 0
          let slept1 := if 0 < d then slept ++ [d] else slept
          match attempts attempt with
          | .ok s => (.ok s, calls + 1, slept1)
          | .error e =>
            if LLMClient.is_retriable_error e = false ∨ left = 0 then
              (.error (.callFailed (some e)), calls + 1, slept1)
            else
              LLMClient.call_with_retries_go attempts timer now
                (attempt + 1) left (some e) (calls + 1) slept1 := rfl

/-- With no timer, a failed attempt whose error is retriable and that is
not the last permitted attempt is followed by a further attempt. -/
theorem call_go_error_retriable (attempts : ℕ → Except LLMError String)
    (now : ℚ) (attempt left : ℕ) (e : LLMError)
    (lastError : Option LLMError) (calls : ℕ) (slept : List ℚ)
    (h1 : attempts attempt = .error e)
    (h2 : LLMClient.is_retriable_error e = true) (h3 : left ≠ 0) :
    LLMClient.call_with_retries_go attempts none now attempt (left + 1)
        lastError calls slept
      = LLMClient.call_with_retries_go attempts none now (attempt + 1) left
          (some e) (calls + 1)
          (if 0 < LLMClient.backoffs.getD attempt 0 then
            slept ++ [LLMClient.backoffs.getD attempt 0] else slept) := by
  rw [call_go_succ]
  simp only [LLMClient.timer_gate, h1, h2, h3, Bool.true_eq_false, false_or,
    if_false]

/-- With no timer, a failed attempt whose error is not retriable, or that
was the last permitted attempt, ends the loop with the aggregate error
after exactly this one extra network call. -/
theorem call_go_error_stop (attempts : ℕ → Except LLMError String)
    (now : ℚ) (attempt left : ℕ) (e : LLMError)
    (lastError : Option LLMError) (calls : ℕ) (slept : List ℚ)
    (h1 : attempts attempt = .error e)
    (h2 : LLMClient.is_retriable_error e = false ∨ left = 0) :
    LLMClient.call_with_retries_go attempts none now attempt (left + 1)
        lastError calls slept
      = (.error (.callFailed (some e)), calls + 1,
          if 0 < LLMClient.backoffs.getD attempt 0 then
            slept ++ [LLMClient.backoffs.getD attempt 0] else slept) := by
  rw [call_go_succ]
  simp only [LLMClient.timer_gate, h1, h2, if_true]

/-- With no timer and iterations remaining, the loop always issues at
least one further network call. -/
theorem call_go_calls_lower (attempts : ℕ → Except LLMError String)
    (now : ℚ) :
    ∀ left attempt lastError calls slept, 0 < left →
      calls + 1
        ≤ (LLMClient.call_with_retries_go attempts none now attempt left
            lastError calls slept).2.1 := by
  intro left
  induction left with
  | zero => intro _ _ _ _ h; omega
  | succ k ih =>
    intro attempt lastError calls slept _
    rw [call_go_succ]
    simp only [LLMClient.timer_gate]
    cases hA : attempts attempt with
    | ok s => simp
    | error e =>
      by_cases hr : LLMClient.is_retriable_error e = false ∨ k = 0
      · simp only [hr, if_true]
        omega
      · simp only [hr, if_false]
        have hk : 0 < k := by
          rcases Nat.eq_zero_or_pos k with h0 | h0
          · exact absurd (Or.inr h0) hr
          · exact h0
        calc calls + 1 ≤ (calls + 1) + 1 := by omega
          _ ≤ _ := ih (attempt + 1) (some e) (calls + 1) _ hk

/-- When the call against the head provider fails, `generate` records its
call count and continues with the remaining providers. -/
theorem generate_go_cons_error (behavior : ProviderId → ℕ → Except LLMError String)
    (timer : Option QuestionTimer) (now : ℚ) (p : ProviderId)
    (rest : List ProviderId) (lastError : Option ClientExc) (e : ClientExc)
    (calls : ℕ) (slept : List ℚ)
    (h : LLMClient.call_with_retries (behavior p) timer now
      = (.error e, calls, slept)) :
    LLMClient.generate_go behavior timer now (p :: rest) lastError
      = ((LLMClient.generate_go behavior timer now rest (some e)).1,
        (p, calls) :: (LLMClient.generate_go behavior timer now rest (some e)).2) := by
  simp only [LLMClient.generate_go, h]

/-- The per-provider trace of a one-provider order always records that
provider with the number of network calls its retry loop issued. -/
theorem generate_go_singleton_trace
    (behavior : ProviderId → ℕ → Except LLMError String)
    (timer : Option QuestionTimer) (now : ℚ) (p : ProviderId)
    (lastError : Option ClientExc) :
    (LLMClient.generate_go behavior timer now [p] lastError).2
      = [(p, (LLMClient.call_with_retries (behavior p) timer now).2.1)] := by
  unfold LLMClient.generate_go
  cases hc : (LLMClient.call_with_retries (behavior p) timer now).1 <;>
    simp [hc, LLMClient.generate_go]

/-- C3: within one provider a failed attempt is retried — up to 4
attempts, sleeping the backoff schedule `[0, 0.5, 1, 2]` — iff the error
is an HTTP 429, a 5xx, a timeout or a transport failure; any other error
(e.g. a 401 or a malformed response) ends the retry loop at once and
`generate` moves immediately to the next provider of the fallback order.
Proved for calls without a timer: with a timer supplied no attempt is
issued at all (see C2), so no failed attempt exists to retry. -/
theorem retry_policy_iff_retriable
    (attempts : ℕ → Except LLMError String)
    (behavior : ProviderId → ℕ → Except LLMError String)
    (e : LLMError) (now : ℚ)
    (h0 : attempts 0 = .error e)
    (hbeh : behavior .gemini = attempts) :
    (2 ≤ (LLMClient.call_with_retries attempts none now).2.1
      ↔ LLMClient.is_retriable_error e = true)
    ∧ (LLMClient.is_retriable_error e = true
        ↔ (e = .httpStatus 429
          ∨ (∃ c, e = .httpStatus c ∧ 500 ≤ c ∧ c < 600)
          ∨ e = .timeoutExc ∨ e = .transportError))
    ∧ (LLMClient.is_retriable_error e = false →
        LLMClient.call_with_retries attempts none now
            = (.error (.callFailed (some e)), 1, [])
        ∧ ∃ m, (LLMClient.generate behavior .gemini true none now).2
            = [(ProviderId.gemini, 1), (ProviderId.aipipe, m)])
    ∧ ((∀ i, i < 4 → ∃ ei, attempts i = .error ei
          ∧ LLMClient.is_retriable_error ei = true) →
        (LLMClient.call_with_retries attempts none now).2.1 = 4
        ∧ (LLMClient.call_with_retries attempts none now).2.2 = [1/2, 1, 2]) := by
  have hstop : LLMClient.is_retriable_error e = false →
      LLMClient.call_with_retries attempts none now
        = (.error (.callFailed (some e)), 1, []) := by
    intro hnr
    unfold LLMClient.call_with_retries
    rw [show (4 : ℕ) = 3 + 1 from rfl,
      call_go_error_stop attempts now 0 3 e none 0 [] h0 (Or.inl hnr)]
    norm_num [LLMClient.backoffs, List.getD_cons_zero]
  refine ⟨?_, ?_, ?_, ?_⟩
  · by_cases hr : LLMClient.is_retriable_error e = true
    · refine ⟨fun _ => hr, fun _ => ?_⟩
      unfold LLMClient.call_with_retries
      rw [show (4 : ℕ) = 3 + 1 from rfl,
        call_go_error_retriable attempts now 0 3 e none 0 [] h0 hr (by omega)]
      exact call_go_calls_lower attempts now 3 1 (some e) 1 _ (by omega)
    · have hnr : LLMClient.is_retriable_error e = false :=
        Bool.eq_false_iff.mpr hr
      refine ⟨fun h2 => ?_, fun h => absurd h hr⟩
      rw [hstop hnr] at h2
      norm_num at h2
  · cases e <;> simp [LLMClient.is_retriable_error]
  · intro hnr
    refine ⟨hstop hnr, (LLMClient.call_with_retries (behavior .aipipe) none now).2.1, ?_⟩
    have hg : LLMClient.call_with_retries (behavior .gemini) none now
        = (.error (.callFailed (some e)), 1, []) := by
      rw [hbeh]; exact hstop hnr
    unfold LLMClient.generate
    rw [show LLMClient.build_provider_order .gemini true
        = [ProviderId.gemini, ProviderId.aipipe] from rfl]
    rw [generate_go_cons_error behavior none now .gemini [.aipipe] none _ 1 [] hg]
    rw [generate_go_singleton_trace behavior none now .aipipe (some (.callFailed (some e)))]
  · intro hall
    obtain ⟨e0, he0, hr0⟩ := hall 0 (by omega)
    obtain ⟨e1, he1, hr1⟩ := hall 1 (by omega)
    obtain ⟨e2, he2, hr2⟩ := hall 2 (by omega)
    obtain ⟨e3, he3, hr3⟩ := hall 3 (by omega)
    have hfull : LLMClient.call_with_retries attempts none now
        = (.error (.callFailed (some e3)), 4, [1/2, 1, 2]) := by
      unfold LLMClient.call_with_retries
      rw [show (4 : ℕ) = 3 + 1 from rfl,
        call_go_error_retriable attempts now 0 3 e0 none 0 [] he0 hr0 (by omega)]
      rw [show (3 : ℕ) = 2 + 1 from rfl,
        call_go_error_retriable attempts now 1 2 e1 (some e0) 1 _ he1 hr1 (by omega)]
      rw [show (2 : ℕ) = 1 + 1 from rfl,
        call_go_error_retriable attempts now 2 1 e2 (some e1) 2 _ he2 hr2 (by omega)]
      rw [show (1 : ℕ) = 0 + 1 from rfl,
        call_go_error_stop attempts now 3 0 e3 (some e2) 3 _ he3 (Or.inr rfl)]
      norm_num [LLMClient.backoffs, List.getD_cons_zero, List.getD_cons_succ]
    rw [hfull]
    exact ⟨rfl, rfl⟩

/-- Witness for C3: every attempt fails with a fatal HTTP 401. -/
theorem retry_policy_iff_retriable_witness :
    ((fun _ : ℕ => (Except.error (LLMError.httpStatus 401) : Except LLMError String)) 0
        = .error (.httpStatus 401))
    ∧ ((fun _ : ProviderId => fun _ : ℕ =>
          (Except.error (LLMError.httpStatus 401) : Except LLMError String)) ProviderId.gemini
        = fun _ : ℕ => (Except.error (LLMError.httpStatus 401) : Except LLMError String))
    ∧ ((2 ≤ (LLMClient.call_with_retries
          (fun _ => .error (.httpStatus 401)) none 0).2.1
        ↔ LLMClient.is_retriable_error (.httpStatus 401) = true)
      ∧ (LLMClient.is_retriable_error (.httpStatus 401) = true
          ↔ ((.httpStatus 401 : LLMError) = .httpStatus 429
            ∨ (∃ c, (.httpStatus 401 : LLMError) = .httpStatus c ∧ 500 ≤ c ∧ c < 600)
            ∨ (.httpStatus 401 : LLMError) = .timeoutExc
            ∨ (.httpStatus 401 : LLMError) = .transportError))
      ∧ (LLMClient.is_retriable_error (.httpStatus 401) = false →
          LLMClient.call_with_retries (fun _ => .error (.httpStatus 401)) none 0
              = (.error (.callFailed (some (.httpStatus 401))), 1, [])
          ∧ ∃ m, (LLMClient.generate
                (fun _ _ => .error (.httpStatus 401)) .gemini true none 0).2
              = [(ProviderId.gemini, 1), (ProviderId.aipipe, m)])
      ∧ ((∀ i, i < 4 → ∃ ei,
            (fun _ : ℕ => (Except.error (LLMError.httpStatus 401) : Except LLMError String)) i
              = .error ei
            ∧ LLMClient.is_retriable_error ei = true) →
          (LLMClient.call_with_retries (fun _ => .error (.httpStatus 401)) none 0).2.1 = 4
          ∧ (LLMClient.call_with_retries (fun _ => .error (.httpStatus 401)) none 0).2.2
              = [1/2, 1, 2])) :=
  ⟨rfl, rfl, retry_policy_iff_retriable
    (fun _ => .error (.httpStatus 401))
    (fun _ _ => .error (.httpStatus 401))
    (.httpStatus 401) 0 rfl rfl⟩

/-- One-step unfolding of the REACTING loop when fuel remains. -/
theorem react_go_succ (ev : ℕ → ReactEvent) (dur : ℕ → ℚ) (t : QuestionTimer)
    (fuel i : ℕ) (now : ℚ) (log : List Char)
    (tmpl : List (List Char × Json)) :
    react_loop_go ev dur t (fuel + 1) i now log tmpl
      = if t.should_force_submit now then some (.ok (.deadline, now, log, tmpl))
        else
          match t.time_remaining_call now with
          | .error _ => some (.error .attribute_error)
          | .ok _tr =>
            match ev i with
            | .llm_raises => some (.error .reasoning_failed)
            | .bad_json => some (.ok (.parse_fail, now + dur i, log, tmpl))
            | .act_tool name outcome =>
              let log1 := append_context log (thought_entry name)
              let log2 := execute_tool_step log1 name outcome
              react_loop_go ev dur t fuel (i + 1) (now + dur i) log2 tmpl
            | .act_final updated explanation =>
              some (.ok (.explicit_final, now + dur i,
                append_context log (final_entry explanation),
                dictUpdate tmpl updated))
            | .act_other =>
              some (.ok (.unknown_action, now + dur i, log, tmpl)) := rfl

/-- C4 (code bug, evaluated at the failing input): a REACTING loop
entered with the deadline already expired ends through the guard with
the `deadline` ending — the claim's forced-finalize scenario — but
`_submit_answer` then calls `_force_finalize`, which raises the
`AttributeError` from `timer.time_remaining()` (solver.py line 343)
before its single reasoning call at line 350 is reached: zero
finalization reasoning calls are issued and the answer is never
submitted, where the claim requires exactly one such call before
submission. -/
theorem deadline_round_issues_no_finalize_call
    (ev : ℕ → ReactEvent) (dur : ℕ → ℚ) (t : QuestionTimer)
    (fuel i : ℕ) (now : ℚ) (log : List Char) (tmpl : List (List Char × Json))
    (h : t.should_force_submit now = true) :
    react_loop_go ev dur t (fuel + 1) i now log tmpl
        = some (.ok (.deadline, now, log, tmpl))
    ∧ submit_finalize t now = (.error .attribute_error, 0)
    ∧ (submit_finalize t now).2 = 0 := by
  refine ⟨?_, ?_, ?_⟩
  · rw [react_go_succ]
    simp [h]
  · simp [submit_finalize, h, force_finalize, QuestionTimer.time_remaining_call]
  · simp [submit_finalize, h, force_finalize, QuestionTimer.time_remaining_call]

/-- Witness for C4: a round whose 0-second budget is already exhausted at
loop entry — the loop exits with the deadline ending and the staged
finalization raises with zero reasoning calls. -/
theorem deadline_round_issues_no_finalize_call_witness :
    QuestionTimer.should_force_submit ⟨0, some 0⟩ 5 = true
    ∧ (react_loop_go (fun _ => .act_other) (fun _ => 1) ⟨0, some 0⟩ 1 0 5 [] []
        = some (.ok (.deadline, 5, [], []))
      ∧ submit_finalize ⟨0, some 0⟩ 5 = (.error .attribute_error, 0)
      ∧ (submit_finalize ⟨0, some 0⟩ 5).2 = 0) := by
  have h : QuestionTimer.should_force_submit ⟨0, some 0⟩ 5 = true := by
    simp only [QuestionTimer.should_force_submit, elapsed_mk_some,
      decide_eq_true_eq]
    norm_num
  exact ⟨h, deadline_round_issues_no_finalize_call
    (fun _ => .act_other) (fun _ => 1) ⟨0, some 0⟩ 0 0 5 [] [] h⟩

/-- C5 (code bug, evaluated at the failing input): a round entering
REACTING with time still on the clock aborts in its first iteration with
the `AttributeError` from `timer.time_remaining()` (solver.py line 219),
before the reasoning call and before any tool dispatch — whatever the
script of step events, tool-proposing or not — and nothing is recorded
in the context log, since the abort precedes every append: the
error-absorbing `_execute_tool_step` is never reached. The round thus
dies of a condition that is neither a planning parse failure nor a
submission failure, against the claim's list of fatal conditions. -/
theorem react_crashes_before_any_step
    (ev : ℕ → ReactEvent) (dur : ℕ → ℚ) (t : QuestionTimer)
    (fuel i : ℕ) (now : ℚ) (log : List Char) (tmpl : List (List Char × Json))
    (h : t.should_force_submit now = false) :
    react_loop_go ev dur t (fuel + 1) i now log tmpl
      = some (.error .attribute_error) := by
  rw [react_go_succ]
  simp [h, QuestionTimer.time_remaining_call]

/-- Witness for C5: a tool-proposing script with the full 170-second
budget remaining still aborts at once, before any dispatch. -/
theorem react_crashes_before_any_step_witness :
    QuestionTimer.should_force_submit ⟨170, some 0⟩ 0 = false
    ∧ react_loop_go (fun _ => .act_tool [Char.ofNat 120] .missing)
        (fun _ => 1) ⟨170, some 0⟩ 5 0 0 [] []
      = some (.error .attribute_error) := by
  have h : QuestionTimer.should_force_submit ⟨170, some 0⟩ 0 = false := by
    simp only [QuestionTimer.should_force_submit, elapsed_mk_some,
      decide_eq_false_iff_not, not_le]
    norm_num
  exact ⟨h, react_crashes_before_any_step
    (fun _ => .act_tool [Char.ofNat 120] .missing) (fun _ => 1)
    ⟨170, some 0⟩ 4 0 0 [] [] h⟩

/-- Unfolding of `append_context` without the intermediate binding. -/
theorem append_context_eq (log entry : List Char) :
    append_context log entry
      = if 12000 < (log ++ entry ++ ['\n']).length then
          (log ++ entry ++ ['\n']).drop ((log ++ entry ++ ['\n']).length - 8000)
        else log ++ entry ++ ['\n'] := rfl

/-- One `_append_context` call keeps a suffix of the untrimmed text. -/
theorem append_context_suffix (log entry : List Char) :
    append_context log entry <:+ log ++ entry ++ ['\n'] := by
  rw [append_context_eq]
  by_cases hc : 12000 < (log ++ entry ++ ['\n']).length
  · rw [if_pos hc]
    exact List.drop_suffix _ _
  · rw [if_neg hc]

/-- Appending the same tail preserves the suffix relation. -/
theorem suffix_append_same {α : Type} {l s : List α} (t : List α)
    (h : l <:+ s) : l ++ t <:+ s ++ t := by
  obtain ⟨p, hp⟩ := h
  exact ⟨p, by rw [← hp, List.append_assoc]⟩

/-- Replaying a list of entries through `_append_context` yields a suffix
of the untrimmed serialization, whatever suffix pair it starts from. -/
theorem fold_append_context_suffix_aux :
    ∀ (es : List (List Char)) (log S : List Char), log <:+ S →
      List.foldl append_context log es
        <:+ List.foldl (fun acc e => acc ++ e ++ ['\n']) S es := by
  intro es
  induction es with
  | nil => intro log S h; simpa using h
  | cons e rest ih =>
    intro log S h
    simp only [List.foldl_cons]
    apply ih
    refine (append_context_suffix log e).trans ?_
    have h2 := suffix_append_same (e ++ ['\n']) h
    simpa [List.append_assoc] using h2

/-- C6 counterexample: after appending an entry of 7000 characters and
then one of 6000 characters, the log is trimmed to its last 8000
characters; the suffixes of the entry sequence serialize to 0, 6001 and
13002 characters, so the retained text is none of them — the oldest
retained entry has been cut mid-entry, against the claim's "no entry
silently truncated mid-entry". -/
theorem context_trim_cuts_mid_entry :
    (fold_append_context [List.replicate 7000 'a', List.replicate 6000 'b']).length = 8000
    ∧ fold_append_context [List.replicate 7000 'a', List.replicate 6000 'b']
        ≠ serialize_entries []
    ∧ fold_append_context [List.replicate 7000 'a', List.replicate 6000 'b']
        ≠ serialize_entries [List.replicate 6000 'b']
    ∧ fold_append_context [List.replicate 7000 'a', List.replicate 6000 'b']
        ≠ serialize_entries [List.replicate 7000 'a', List.replicate 6000 'b'] := by
  have h1 : append_context [] (List.replicate 7000 'a')
      = List.replicate 7000 'a' ++ ['\n'] := by
    rw [append_context_eq, if_neg]
    · rw [List.nil_append]
    · simp only [List.nil_append, List.length_append, List.length_replicate,
        List.length_cons, List.length_nil]
      omega
  have hlen : (fold_append_context
      [List.replicate 7000 'a', List.replicate 6000 'b']).length = 8000 := by
    have hfold : fold_append_context [List.replicate 7000 'a', List.replicate 6000 'b']
        = append_context (append_context [] (List.replicate 7000 'a'))
            (List.replicate 6000 'b') := by
      simp only [fold_append_context, List.foldl_cons, List.foldl_nil]
    rw [hfold, h1, append_context_eq, if_pos]
    · rw [List.length_drop]
      simp only [List.length_append, List.length_replicate,
        List.length_cons, List.length_nil]
    · simp only [List.length_append, List.length_replicate,
        List.length_cons, List.length_nil]
      omega
  have hS0 : (serialize_entries ([] : List (List Char))).length = 0 := rfl
  have hS2 : (serialize_entries [List.replicate 6000 'b']).length = 6001 := by
    simp only [serialize_entries, List.foldl_cons, List.foldl_nil,
      List.nil_append, List.length_append, List.length_replicate,
      List.length_cons, List.length_nil]
  have hS3 : (serialize_entries
      [List.replicate 7000 'a', List.replicate 6000 'b']).length = 13002 := by
    simp only [serialize_entries, List.foldl_cons, List.foldl_nil,
      List.nil_append, List.length_append, List.length_replicate,
      List.length_cons, List.length_nil]
  refine ⟨hlen, fun h => ?_, fun h => ?_, fun h => ?_⟩
  · have := congrArg List.length h
    rw [hlen, hS0] at this
    omega
  · have := congrArg List.length h
    rw [hlen, hS2] at this
    omega
  · have := congrArg List.length h
    rw [hlen, hS3] at this
    omega

/-- C6 (amended): after every `_append_context` call the log holds at
most 12000 characters, and replaying any entry sequence keeps a
character-level suffix of the full untrimmed transcript — order
preserved, no gaps, no reordering — though trimming is by characters, so
entry boundaries are not respected (see the counterexample). -/
theorem context_log_cap_and_char_suffix (log entry : List Char)
    (es : List (List Char)) :
    (append_context log entry).length ≤ 12000
    ∧ fold_append_context es <:+ serialize_entries es := by
  constructor
  · rw [append_context_eq]
    by_cases hc : 12000 < (log ++ entry ++ ['\n']).length
    · rw [if_pos hc]
      rw [List.length_drop]
      omega
    · rw [if_neg hc]
      omega
  · exact fold_append_context_suffix_aux es [] [] List.nil_suffix

/-- Computation rule for `dictGet` on a cons cell. -/
theorem dictGet_cons (k1 : List Char) (v1 : Json)
    (rest : List (List Char × Json)) (k : List Char) :
    dictGet ((k1, v1) :: rest) k
      = if k1 = k then some v1 else dictGet rest k := rfl

/-- A key absent from `d` is found in `d ++ [(k, v)]` with value `v`. -/
theorem dictGet_append_self (d : List (List Char × Json)) (k : List Char)
    (v : Json) (h : dictGet d k = none) :
    dictGet (d ++ [(k, v)]) k = some v := by
  induction d with
  | nil => simp [dictGet]
  | cons kv rest ih =>
    obtain ⟨k1, v1⟩ := kv
    rw [dictGet_cons] at h
    rw [List.cons_append, dictGet_cons]
    by_cases hk : k1 = k
    · rw [if_pos hk] at h
      exact absurd h (by simp)
    · rw [if_neg hk] at h
      rw [if_neg hk]
      exact ih h
/-- Appending a differently-keyed binding does not change a lookup. -/
theorem dictGet_append_other (d : List (List Char × Json)) (k k2 : List Char)
    (v : Json) (hne : k ≠ k2) :
    dictGet (d ++ [(k, v)]) k2 = dictGet d k2 := by
  induction d with
  | nil => simp [dictGet, hne]
  | cons kv rest ih =>
    obtain ⟨k1, v1⟩ := kv
    rw [List.cons_append, dictGet_cons, dictGet_cons]
    by_cases hk : k1 = k2
    · rw [if_pos hk, if_pos hk]
    · rw [if_neg hk, if_neg hk]
      exact ih

/-- After `setdefault(k, v)` the key `k` is present. -/
theorem dictGet_setdefault_isSome (d : List (List Char × Json))
    (k : List Char) (v : Json) :
    (dictGet (dictSetdefault d k v) k).isSome = true := by
  unfold dictSetdefault
  cases h : dictGet d k with
  | some w => simp [h]
  | none => rw [dictGet_append_self d k v h]; rfl

/-- `setdefault(k, v)` does not change lookups of other keys. -/
theorem dictGet_setdefault_other (d : List (List Char × Json))
    (k : List Char) (v : Json) (k2 : List Char) (hne : k ≠ k2) :
    dictGet (dictSetdefault d k v) k2 = dictGet d k2 := by
  unfold dictSetdefault
  cases h : dictGet d k with
  | some w => rfl
  | none => exact dictGet_append_other d k k2 v hne

/-- `setdefault(k, v)` on a dict lacking `k` binds `k` to `v`. -/
theorem dictGet_setdefault_absent (d : List (List Char × Json))
    (k : List Char) (v : Json) (h : dictGet d k = none) :
    dictGet (dictSetdefault d k v) k = some v := by
  unfold dictSetdefault
  rw [h]
  exact dictGet_append_self d k v h

/-- Unfolding of `ensure_required_fields` as a chain of `setdefault`s. -/
theorem ensure_required_fields_eq (email secret : List Char)
    (d : List (List Char × Json)) :
    ensure_required_fields email secret d
      = dictSetdefault
          (dictSetdefault
            (dictSetdefault
              (dictSetdefault d (String.data "email") (.str email))
              (String.data "url")
              ((dictGet (dictSetdefault d (String.data "email") (.str email))
                (String.data "url")).getD (.str [])))
            (String.data "secret") (.str secret))
          (String.data "answer") .null := rfl

/-- C7 counterexample: for a template still lacking an `answer` after the
reasoning phases, `_submit_answer` defaults it to Python `None` — JSON
`null` — so the submitted `answer` is null, not the claimed non-null
default. -/
theorem default_answer_is_null :
    dictGet (ensure_required_fields (String.data "solver@example.com")
        (String.data "tds-secret") []) (String.data "answer")
      = some Json.null
    ∧ ¬ ∃ v, dictGet (ensure_required_fields (String.data "solver@example.com")
        (String.data "tds-secret") []) (String.data "answer")
      = some v ∧ v ≠ Json.null := by
  have h : dictGet (ensure_required_fields (String.data "solver@example.com")
      (String.data "tds-secret") []) (String.data "answer")
      = some Json.null := by
    rw [ensure_required_fields_eq]
    refine dictGet_setdefault_absent _ _ _ ?_
    rw [dictGet_setdefault_other _ _ _ _ (by decide),
      dictGet_setdefault_other _ _ _ _ (by decide),
      dictGet_setdefault_other _ _ _ _ (by decide)]
    rfl
  refine ⟨h, ?_⟩
  rintro ⟨v, hv, hne⟩
  rw [h] at hv
  exact hne (Option.some.inj hv).symm

/-- C7 (amended): at submission time the payload always carries the
required `email`, `url`, `secret` and `answer` fields; an `answer` still
absent after the reasoning phases is defaulted to `null` (not to a
non-null sentinel). -/
theorem required_fields_present_answer_defaulted_null
    (email secret : List Char) (d : List (List Char × Json))
    (h : dictGet d (String.data "answer") = none) :
    (dictGet (ensure_required_fields email secret d)
      (String.data "email")).isSome = true
    ∧ (dictGet (ensure_required_fields email secret d)
      (String.data "url")).isSome = true
    ∧ (dictGet (ensure_required_fields email secret d)
      (String.data "secret")).isSome = true
    ∧ dictGet (ensure_required_fields email secret d) (String.data "answer")
      = some Json.null := by
  rw [ensure_required_fields_eq]
  refine ⟨?_, ?_, ?_, ?_⟩
  · rw [dictGet_setdefault_other _ _ _ _ (by decide),
      dictGet_setdefault_other _ _ _ _ (by decide),
      dictGet_setdefault_other _ _ _ _ (by decide)]
    exact dictGet_setdefault_isSome _ _ _
  · rw [dictGet_setdefault_other _ _ _ _ (by decide),
      dictGet_setdefault_other _ _ _ _ (by decide)]
    exact dictGet_setdefault_isSome _ _ _
  · rw [dictGet_setdefault_other _ _ _ _ (by decide)]
    exact dictGet_setdefault_isSome _ _ _
  · refine dictGet_setdefault_absent _ _ _ ?_
    rw [dictGet_setdefault_other _ _ _ _ (by decide),
      dictGet_setdefault_other _ _ _ _ (by decide),
      dictGet_setdefault_other _ _ _ _ (by decide)]
    exact h

/-- Witness for the amended C7 at the empty template. -/
theorem required_fields_present_answer_defaulted_null_witness :
    dictGet ([] : List (List Char × Json)) (String.data "answer") = none
    ∧ ((dictGet (ensure_required_fields (String.data "solver@example.org")
          (String.data "sct") []) (String.data "email")).isSome = true
      ∧ (dictGet (ensure_required_fields (String.data "solver@example.org")
          (String.data "sct") []) (String.data "url")).isSome = true
      ∧ (dictGet (ensure_required_fields (String.data "solver@example.org")
          (String.data "sct") []) (String.data "secret")).isSome = true
      ∧ dictGet (ensure_required_fields (String.data "solver@example.org")
          (String.data "sct") []) (String.data "answer") = some Json.null) :=
  ⟨rfl, required_fields_present_answer_defaulted_null
    (String.data "solver@example.org") (String.data "sct") [] rfl⟩

/-- The escaped length of a repeated one-byte character. -/
theorem escStrLen_replicate (n : ℕ) (c : Char) (h : escCharLen c = 1) :
    escStrLen (List.replicate n c) = 2 + n := by
  simp [escStrLen, List.map_replicate, h, List.sum_replicate, smul_eq_mul]

/-- Computation rule: dumped size of a JSON string. -/
theorem dumpsLen_str (s : List Char) : dumpsLen (Json.str s) = escStrLen s := by
  simp only [dumpsLen]

/-- Computation rule: dumped size of a one-entry JSON object. -/
theorem dumpsLen_obj_single (k : List Char) (v : Json) :
    dumpsLen (Json.obj [(k, v)]) = 2 + (escStrLen k + 2 + dumpsLen v) := by
  simp only [dumpsLen, dumpsLenObj]

/-- C8 counterexample: a payload whose `answer` is a string of two
million characters serializes to 2000014 bytes — over the 1MB cap — and
`SubmissionHandler.submit_answer` raises `SubmissionError` before any
POST: the payload is not collapsed to a minimal `{answer: truncated}`
payload and not transmitted at all. -/
theorem oversize_payload_rejected_not_collapsed :
    1048576 < dumpsLen (Json.obj [(String.data "answer",
        Json.str (List.replicate 2000000 'a'))])
    ∧ submit_answer_gate (Json.obj [(String.data "answer",
        Json.str (List.replicate 2000000 'a'))]) = none := by
  have h8 : escStrLen (String.data "answer") = 8 := by decide
  have hrep : escStrLen (List.replicate 2000000 'a') = 2 + 2000000 :=
    escStrLen_replicate 2000000 'a' (by decide)
  have hd : dumpsLen (Json.obj [(String.data "answer",
      Json.str (List.replicate 2000000 'a'))]) = 2000014 := by
    rw [dumpsLen_obj_single, dumpsLen_str, h8, hrep]
  constructor
  · rw [hd]
    norm_num
  · unfold submit_answer_gate
    rw [hd, if_pos (by norm_num)]

/-- C8 (amended): `SubmissionHandler.submit_answer` validates the
serialized payload size against the 1MB cap before transmission, but an
over-cap payload is rejected — `SubmissionError`, nothing POSTed — rather
than collapsed; an under-cap payload is sent unmodified. (The agent's own
`_submit_answer` path performs no size validation at all.) -/
theorem submission_size_gate_contract (p : Json) :
    (submit_answer_gate p = none ↔ 1048576 < dumpsLen p)
    ∧ (submit_answer_gate p = some p ↔ dumpsLen p ≤ 1048576)
    ∧ (∀ q, submit_answer_gate p = some q → q = p) := by
  unfold submit_answer_gate
  by_cases hc : 1048576 < dumpsLen p
  · rw [if_pos hc]
    exact ⟨⟨fun _ => hc, fun _ => rfl⟩,
      ⟨fun h => Option.noConfusion h, fun hle => absurd hc (by omega)⟩,
      fun q hq => Option.noConfusion hq⟩
  · rw [if_neg hc]
    exact ⟨⟨fun h => Option.noConfusion h, fun hgt => absurd hgt hc⟩,
      ⟨fun _ => by omega, fun _ => rfl⟩,
      fun q hq => (Option.some.inj hq).symm⟩

/-- Witness for the amended C8: the empty-object payload (2 bytes) passes
through the gate unmodified. -/
theorem submission_size_gate_contract_witness :
    submit_answer_gate (Json.obj []) = some (Json.obj []) :=
  ((submission_size_gate_contract (Json.obj [])).2.1).mpr
    (by norm_num [dumpsLen, dumpsLenObj])

/-- C9 (code bug, evaluated at the failing input): for every chain of
submit responses — including an adversarial one that always carries a
next url — the question loop of `run_solver_job` raises the
`AttributeError` from `settings.forces_submit_time` (solver.py line 45;
config.py defines `force_submit_time`) in its very first iteration: the
job fails with zero completed rounds and no chaining ever occurs. The
loop body contains no round-counter check, so no 20-50-round safety cap
exists in the code either. -/
theorem job_chain_crashes_in_first_round
    (answers : ℕ → Option (List Char)) (fuel done : ℕ) :
    run_solver_job_go answers (fuel + 1) done
      = some (.error .attribute_error) := rfl

end QuizSolver
